import Mathlib

/-!
Verification of the payment escrow lifecycle engine
(`src/contracts/PaymentEscrow.sol`).

The contract is shallowly embedded: `uint256` values become `Nat`
(Solidity 0.8 checked arithmetic: subtraction that would underflow
aborts the whole transaction, modelled by an explicit check returning
`EscrowError.Underflow`); `address` becomes `Nat` with `0` as the
null sentinel; `require` failures and arithmetic aborts become
`Except.error`, which models Solidity's transaction revert (no partial
effect survives a revert).  Each operation also appends to an ordered
`log` of externally visible steps (calls into the token ledger, status
field writes, emitted events) so that the *order* of external calls
versus internal state commits, and the payloads of emitted events, are
part of the model.

The `LeaseToken` ledger contract is imported by the source but its code
is not part of the core under verification; it is modelled from the
spec's ledger-capability description (balance query, authorize,
transfer, transfer-from with standard ERC-20-style semantics).
-/

namespace PaymentEscrow

/-- Payment lifecycle status, mirroring the Solidity `enum PaymentStatus`
(source lines 8-13).  `PENDING` is the first variant, hence the
zero-value default of an unset mapping slot. -/
inductive PaymentStatus where
  | PENDING
  | PAID
  | RELEASED
  | REFUNDED
deriving DecidableEq, Repr

/-- A payment record, mirroring `struct Payment` (source lines 15-20). -/
structure Payment where
  payer : Nat
  payee : Nat
  amount : Nat
  status : PaymentStatus
deriving DecidableEq, Repr

/-- The all-zero record a Solidity `mapping(uint256 => Payment)` returns
for an unset key: zero addresses, zero amount, status `PENDING`
(enum value 0). -/
def defaultPayment : Payment :=
  { payer := 0, payee := 0, amount := 0, status := PaymentStatus.PENDING }

/-- Abort reasons.  The first five follow the spec's error taxonomy
(each `require` message of the source is classified accordingly);
`Underflow` is the Solidity 0.8 checked-arithmetic abort (Panic 0x11). -/
inductive EscrowError where
  | Unauthorized
  | NotFound
  | InvalidState
  | InsufficientFunds
  | InvalidParameter
  | Underflow
deriving DecidableEq, Repr

/-- Events emitted by the contract (source lines 53-61). -/
inductive Event where
  | paymentCreated (payer payee amount : Nat)
  | paymentPaid (payer payee amount : Nat)
  | paymentReleased (payer payee amount : Nat)
  | paymentRefunded (payer payee amount : Nat)
  | protectionFeeSet (fee : Nat)
  | commissionFeeSet (fee : Nat)
  | tokenWithdrawn (owner amount : Nat)
  | rentalMarketplaceAddressSet (addr : Nat)
  | rentDisputeDAOAddressSet (addr : Nat)
deriving DecidableEq, Repr

/-- One externally visible step of an operation, in execution order:
a call into the ledger capability adapter, a write of a payment's
`status` field, or an emitted event. -/
inductive Step where
  | callBalanceOf (who : Nat)
  | callApprove (owner spender amount : Nat)
  | callTransfer (src dst amount : Nat)
  | callTransferFrom (spender src dst amount : Nat)
  | statusWrite (id : Nat) (st : PaymentStatus)
  | emit (e : Event)
deriving DecidableEq, Repr

/-- Modelled from the spec: the `LeaseToken` ledger capability adapter
(its Solidity source is not part of the verified core).  The spec gives
it exactly four operations — balance query, authorize, transfer,
transfer-from — with standard token-ledger semantics: a transfer of
more than the source balance is rejected. -/
structure Ledger where
  balance : Nat → Nat
  allowance : Nat → Nat → Nat

/-- Modelled from the spec: `authorize(owner, spender, amount)` records
the allowance; it does not move funds and does not fail. -/
def Ledger.approve (l : Ledger) (owner spender amount : Nat) : Ledger :=
  { l with allowance := fun o s =>
      if o = owner ∧ s = spender then amount else l.allowance o s }

/-- Modelled from the spec: `transfer(src, dst, amount)` moves `amount`
from `src` to `dst`, rejecting an under-funded transfer. -/
def Ledger.transfer (l : Ledger) (src dst amount : Nat) :
    Except EscrowError Ledger :=
  if l.balance src < amount then
    Except.error EscrowError.InsufficientFunds
  else
    let afterDebit : Nat → Nat := fun a =>
      if a = src then l.balance src - amount else l.balance a
    Except.ok { l with balance := fun a =>
      if a = dst then afterDebit dst + amount else afterDebit a }

/-- Modelled from the spec: `transferFrom(spender, src, dst, amount)`
moves `amount` from `src` to `dst` consuming `spender`'s allowance,
rejecting insufficient allowance or balance. -/
def Ledger.transferFrom (l : Ledger) (spender src dst amount : Nat) :
    Except EscrowError Ledger :=
  if l.allowance src spender < amount then
    Except.error EscrowError.InsufficientFunds
  else
    match l.transfer src dst amount with
    | Except.error e => Except.error e
    | Except.ok l2 =>
      let newAllowance : Nat → Nat → Nat := fun o s =>
        if o = src ∧ s = spender then l.allowance src spender - amount
        else l2.allowance o s
      Except.ok { l2 with allowance := newAllowance }

/-- The full state of the deployed escrow contract together with the
external ledger and the ordered log of observable steps.
Fields mirror the contract's state variables (source lines 22-38);
`escrowAddr` is `address(this)`. -/
structure EscrowState where
  numOfPayments : Nat
  protectionFee : Nat
  commissionFee : Nat
  payments : Nat → Payment
  owner : Nat
  escrowAddr : Nat
  rentalMarketplaceAddress : Nat
  rentDisputeDAOAddress : Nat
  ledger : Ledger
  log : List Step

/-- The constructor (source lines 40-49): stores the fee values without
any validation, records the deployer as owner; the two privileged
addresses start at the zero default. -/
def deploy (sender escrowAddr protectionFee commissionFee : Nat)
    (ledger : Ledger) : EscrowState :=
  { numOfPayments := 0
    protectionFee := protectionFee
    commissionFee := commissionFee
    payments := fun _ => defaultPayment
    owner := sender
    escrowAddr := escrowAddr
    rentalMarketplaceAddress := 0
    rentDisputeDAOAddress := 0
    ledger := ledger
    log := [] }

/-- `createPayment` (source lines 185-204): gated by
`onlyRentalMarketplaceOrRentDisputeDAO` and
`checkSufficientBalance(payer, amount)` (a ledger balance query);
appends a `PENDING` record at index `numOfPayments`, increments the
counter, emits `paymentCreated`, returns the new id. -/
def createPayment (sender payer payee amount : Nat) (s : EscrowState) :
    Except EscrowError (EscrowState × Nat) :=
  if ¬(sender = s.rentalMarketplaceAddress ∨ sender = s.rentDisputeDAOAddress)
  then Except.error EscrowError.Unauthorized
  else if s.ledger.balance payer < amount then
    Except.error EscrowError.InsufficientFunds
  else
    Except.ok
      ({ s with
          payments := fun j =>
            if j = s.numOfPayments then
              { payer := payer, payee := payee, amount := amount,
                status := PaymentStatus.PENDING }
            else s.payments j
          numOfPayments := s.numOfPayments + 1
          log := s.log ++
            [Step.callBalanceOf payer,
             Step.emit (Event.paymentCreated payer payee amount)] },
        s.numOfPayments)

/-- `pay` (source lines 207-228): gated by `onlyRentalMarketplace`,
`PaymentExists`, `PaymentPending`; approves and executes the
transfer-from of `amount` from the payer into the escrow, and only
*after* both external calls sets the status to `PAID` and emits
`paymentPaid`. -/
def pay (sender id : Nat) (s : EscrowState) : Except EscrowError EscrowState :=
  if sender ≠ s.rentalMarketplaceAddress then
    Except.error EscrowError.Unauthorized
  else if ¬ id < s.numOfPayments then
    Except.error EscrowError.NotFound
  else if (s.payments id).status ≠ PaymentStatus.PENDING then
    Except.error EscrowError.InvalidState
  else
    let p := s.payments id
    let l1 := s.ledger.approve p.payer s.escrowAddr p.amount
    match l1.transferFrom s.escrowAddr p.payer s.escrowAddr p.amount with
    | Except.error e => Except.error e
    | Except.ok l2 =>
      Except.ok { s with
        ledger := l2
        payments := fun j =>
          if j = id then { p with status := PaymentStatus.PAID }
          else s.payments j
        log := s.log ++
          [Step.callApprove p.payer s.escrowAddr p.amount,
           Step.callTransferFrom s.escrowAddr p.payer s.escrowAddr p.amount,
           Step.statusWrite id PaymentStatus.PAID,
           Step.emit (Event.paymentPaid p.payer p.payee p.amount)] }

/-- `release` (source lines 231-249): gated by `onlyRentalMarketplace`,
`PaymentExists`, `PaymentPaid`; computes `amount - commissionFee` with
Solidity 0.8 checked subtraction (an underflow aborts before the
external call), transfers the difference from the escrow to the payee,
and only *after* the external call sets the status to `RELEASED` and
emits `paymentReleased` carrying the original amount. -/
def release (sender id : Nat) (s : EscrowState) :
    Except EscrowError EscrowState :=
  if sender ≠ s.rentalMarketplaceAddress then
    Except.error EscrowError.Unauthorized
  else if ¬ id < s.numOfPayments then
    Except.error EscrowError.NotFound
  else if (s.payments id).status ≠ PaymentStatus.PAID then
    Except.error EscrowError.InvalidState
  else
    let p := s.payments id
    if p.amount < s.commissionFee then
      Except.error EscrowError.Underflow
    else
      match s.ledger.transfer s.escrowAddr p.payee
          (p.amount - s.commissionFee) with
      | Except.error e => Except.error e
      | Except.ok l2 =>
        Except.ok { s with
          ledger := l2
          payments := fun j =>
            if j = id then { p with status := PaymentStatus.RELEASED }
            else s.payments j
          log := s.log ++
            [Step.callTransfer s.escrowAddr p.payee
               (p.amount - s.commissionFee),
             Step.statusWrite id PaymentStatus.RELEASED,
             Step.emit (Event.paymentReleased p.payer p.payee p.amount)] }

/-- `refund` (source lines 252-269): gated by
`onlyRentalMarketplaceOrRentDisputeDAO`, `PaymentExists`, `PaymentPaid`;
transfers the full `amount` from the escrow back to the payer, then
sets the status to `REFUNDED` and emits `paymentRefunded`. -/
def refund (sender id : Nat) (s : EscrowState) :
    Except EscrowError EscrowState :=
  if ¬(sender = s.rentalMarketplaceAddress ∨ sender = s.rentDisputeDAOAddress)
  then Except.error EscrowError.Unauthorized
  else if ¬ id < s.numOfPayments then
    Except.error EscrowError.NotFound
  else if (s.payments id).status ≠ PaymentStatus.PAID then
    Except.error EscrowError.InvalidState
  else
    let p := s.payments id
    match s.ledger.transfer s.escrowAddr p.payer p.amount with
    | Except.error e => Except.error e
    | Except.ok l2 =>
      Except.ok { s with
        ledger := l2
        payments := fun j =>
          if j = id then { p with status := PaymentStatus.REFUNDED }
          else s.payments j
        log := s.log ++
          [Step.callTransfer s.escrowAddr p.payer p.amount,
           Step.statusWrite id PaymentStatus.REFUNDED,
           Step.emit (Event.paymentRefunded p.payer p.payee p.amount)] }

/-- `withdrawToken` (source lines 272-282): owner-only; transfers the
escrow's entire current ledger balance to the owner, then emits
`tokenWithdrawn` whose amount argument re-reads the escrow's balance
*after* the transfer (source lines 278-281). -/
def withdrawToken (sender : Nat) (s : EscrowState) :
    Except EscrowError EscrowState :=
  if sender ≠ s.owner then
    Except.error EscrowError.Unauthorized
  else
    let bal := s.ledger.balance s.escrowAddr
    match s.ledger.transfer s.escrowAddr s.owner bal with
    | Except.error e => Except.error e
    | Except.ok l2 =>
      Except.ok { s with
        ledger := l2
        log := s.log ++
          [Step.callBalanceOf s.escrowAddr,
           Step.callTransfer s.escrowAddr s.owner bal,
           Step.callBalanceOf s.escrowAddr,
           Step.emit (Event.tokenWithdrawn s.owner
             (l2.balance s.escrowAddr))] }

/-- `setProtectionFee` (source lines 287-292): owner-only, rejects a
non-positive fee (`invalidProtectionFee` modifier). -/
def setProtectionFee (sender fee : Nat) (s : EscrowState) :
    Except EscrowError EscrowState :=
  if sender ≠ s.owner then
    Except.error EscrowError.Unauthorized
  else if ¬ fee > 0 then
    Except.error EscrowError.InvalidParameter
  else
    Except.ok { s with
      protectionFee := fee
      log := s.log ++ [Step.emit (Event.protectionFeeSet fee)] }

/-- `setCommissionFee` (source lines 294-299): owner-only, rejects a
non-positive fee (`invalidCommissionFee` modifier). -/
def setCommissionFee (sender fee : Nat) (s : EscrowState) :
    Except EscrowError EscrowState :=
  if sender ≠ s.owner then
    Except.error EscrowError.Unauthorized
  else if ¬ fee > 0 then
    Except.error EscrowError.InvalidParameter
  else
    Except.ok { s with
      commissionFee := fee
      log := s.log ++ [Step.emit (Event.commissionFeeSet fee)] }

/-- `setRentalMarketplaceAddress` (source lines 302-311): owner-only,
rejects the zero address. -/
def setRentalMarketplaceAddress (sender addr : Nat) (s : EscrowState) :
    Except EscrowError EscrowState :=
  if sender ≠ s.owner then
    Except.error EscrowError.Unauthorized
  else if addr = 0 then
    Except.error EscrowError.InvalidParameter
  else
    Except.ok { s with
      rentalMarketplaceAddress := addr
      log := s.log ++ [Step.emit (Event.rentalMarketplaceAddressSet addr)] }

/-- `setRentDisputeDAOAddress` (source lines 314-319): owner-only,
rejects the zero address. -/
def setRentDisputeDAOAddress (sender addr : Nat) (s : EscrowState) :
    Except EscrowError EscrowState :=
  if sender ≠ s.owner then
    Except.error EscrowError.Unauthorized
  else if addr = 0 then
    Except.error EscrowError.InvalidParameter
  else
    Except.ok { s with
      rentDisputeDAOAddress := addr
      log := s.log ++ [Step.emit (Event.rentDisputeDAOAddressSet addr)] }

/-- `getPayment` (source lines 334-338): returns `payments[_paymentId]`
with no bounds check, so an out-of-range id yields the mapping's
zero-value default record.  A view function: it takes the state and
returns a value, mutating nothing. -/
def getPayment (id : Nat) (s : EscrowState) : Payment :=
  s.payments id

/-- `getNumOfPayments` (source lines 341-343). -/
def getNumOfPayments (s : EscrowState) : Nat :=
  s.numOfPayments

/-- `getBalance` (source lines 346-348): the escrow's own ledger
balance. -/
def getBalance (s : EscrowState) : Nat :=
  s.ledger.balance s.escrowAddr

/-- One invocation of any mutating operation of the contract, with its
caller and arguments. -/
inductive Op where
  | createPayment (sender payer payee amount : Nat)
  | pay (sender id : Nat)
  | release (sender id : Nat)
  | refund (sender id : Nat)
  | withdrawToken (sender : Nat)
  | setProtectionFee (sender fee : Nat)
  | setCommissionFee (sender fee : Nat)
  | setRentalMarketplaceAddress (sender addr : Nat)
  | setRentDisputeDAOAddress (sender addr : Nat)
deriving DecidableEq, Repr

/-- Run one operation, discarding any return value. -/
def step (op : Op) (s : EscrowState) : Except EscrowError EscrowState :=
  match op with
  | Op.createPayment sender payer payee amount =>
    match createPayment sender payer payee amount s with
    | Except.error e => Except.error e
    | Except.ok (s', _) => Except.ok s'
  | Op.pay sender id => pay sender id s
  | Op.release sender id => release sender id s
  | Op.refund sender id => refund sender id s
  | Op.withdrawToken sender => withdrawToken sender s
  | Op.setProtectionFee sender fee => setProtectionFee sender fee s
  | Op.setCommissionFee sender fee => setCommissionFee sender fee s
  | Op.setRentalMarketplaceAddress sender addr =>
    setRentalMarketplaceAddress sender addr s
  | Op.setRentDisputeDAOAddress sender addr =>
    setRentDisputeDAOAddress sender addr s

/-- The state after an operation: on revert (`Except.error`) the
pre-state survives unchanged, matching Solidity's all-or-nothing
transaction semantics. -/
def exec (op : Op) (s : EscrowState) : EscrowState :=
  match step op s with
  | Except.ok s' => s'
  | Except.error _ => s

/-- States reachable from `s0` by any sequence of successful
operations (reverted operations leave the state unchanged, so they
need no step of their own). -/
inductive Reachable (s0 : EscrowState) : EscrowState → Prop where
  | refl : Reachable s0 s0
  | next {s s' : EscrowState} (op : Op) :
      Reachable s0 s → step op s = Except.ok s' → Reachable s0 s'

/-- A status is terminal when it is `RELEASED` or `REFUNDED`. -/
abbrev isTerminal (st : PaymentStatus) : Prop :=
  st = PaymentStatus.RELEASED ∨ st = PaymentStatus.REFUNDED

/-! ### Inversion lemmas: what a successful operation did -/

theorem createPayment_ok_inv {sender payer payee amount : Nat}
    {s s' : EscrowState} {r : Nat}
    (h : createPayment sender payer payee amount s = Except.ok (s', r)) :
    (sender = s.rentalMarketplaceAddress ∨
      sender = s.rentDisputeDAOAddress) ∧
    amount ≤ s.ledger.balance payer ∧
    r = s.numOfPayments ∧
    s' = { s with
      payments := fun j =>
        if j = s.numOfPayments then
          { payer := payer, payee := payee, amount := amount,
            status := PaymentStatus.PENDING }
        else s.payments j
      numOfPayments := s.numOfPayments + 1
      log := s.log ++
        [Step.callBalanceOf payer,
         Step.emit (Event.paymentCreated payer payee amount)] } := by
  unfold createPayment at h
  split at h
  · simp at h
  · split at h
    · simp at h
    · injection h with h'
      injection h' with h1 h2
      refine ⟨by omega, by omega, h2.symm, h1.symm⟩

theorem pay_ok_inv {sender id : Nat} {s s' : EscrowState}
    (h : pay sender id s = Except.ok s') :
    sender = s.rentalMarketplaceAddress ∧ id < s.numOfPayments ∧
    (s.payments id).status = PaymentStatus.PENDING ∧
    ∃ l2, s' = { s with
      ledger := l2
      payments := fun j =>
        if j = id then { s.payments id with status := PaymentStatus.PAID }
        else s.payments j
      log := s.log ++
        [Step.callApprove (s.payments id).payer s.escrowAddr
           (s.payments id).amount,
         Step.callTransferFrom s.escrowAddr (s.payments id).payer
           s.escrowAddr (s.payments id).amount,
         Step.statusWrite id PaymentStatus.PAID,
         Step.emit (Event.paymentPaid (s.payments id).payer
           (s.payments id).payee (s.payments id).amount)] } := by
  simp only [pay] at h
  split at h
  next hs => simp at h
  next hs =>
  split at h
  next hid => simp at h
  next hid =>
  split at h
  next hst => simp at h
  next hst =>
  split at h
  next e heq => simp at h
  next l2 heq =>
    injection h with h'
    exact ⟨not_not.mp hs, not_not.mp hid, not_not.mp hst, l2, h'.symm⟩

theorem release_ok_inv {sender id : Nat} {s s' : EscrowState}
    (h : release sender id s = Except.ok s') :
    sender = s.rentalMarketplaceAddress ∧ id < s.numOfPayments ∧
    (s.payments id).status = PaymentStatus.PAID ∧
    s.commissionFee ≤ (s.payments id).amount ∧
    (s.payments id).amount - s.commissionFee ≤
      s.ledger.balance s.escrowAddr ∧
    ∃ l2, s.ledger.transfer s.escrowAddr (s.payments id).payee
        ((s.payments id).amount - s.commissionFee) = Except.ok l2 ∧
      s' = { s with
        ledger := l2
        payments := fun j =>
          if j = id then { s.payments id with status := PaymentStatus.RELEASED }
          else s.payments j
        log := s.log ++
          [Step.callTransfer s.escrowAddr (s.payments id).payee
             ((s.payments id).amount - s.commissionFee),
           Step.statusWrite id PaymentStatus.RELEASED,
           Step.emit (Event.paymentReleased (s.payments id).payer
             (s.payments id).payee (s.payments id).amount)] } := by
  simp only [release] at h
  split at h
  next hs => simp at h
  next hs =>
  split at h
  next hid => simp at h
  next hid =>
  split at h
  next hst => simp at h
  next hst =>
  split at h
  next hfee => simp at h
  next hfee =>
  split at h
  next e heq => simp at h
  next l2 heq =>
    injection h with h'
    have hbal : ¬ s.ledger.balance s.escrowAddr <
        (s.payments id).amount - s.commissionFee := by
      intro hc
      unfold Ledger.transfer at heq
      rw [if_pos hc] at heq
      simp at heq
    exact ⟨not_not.mp hs, not_not.mp hid, not_not.mp hst,
      Nat.le_of_not_lt hfee, Nat.le_of_not_lt hbal, l2, heq, h'.symm⟩

theorem refund_ok_inv {sender id : Nat} {s s' : EscrowState}
    (h : refund sender id s = Except.ok s') :
    (sender = s.rentalMarketplaceAddress ∨
      sender = s.rentDisputeDAOAddress) ∧
    id < s.numOfPayments ∧
    (s.payments id).status = PaymentStatus.PAID ∧
    (s.payments id).amount ≤ s.ledger.balance s.escrowAddr ∧
    ∃ l2, s.ledger.transfer s.escrowAddr (s.payments id).payer
        (s.payments id).amount = Except.ok l2 ∧
      s' = { s with
        ledger := l2
        payments := fun j =>
          if j = id then { s.payments id with status := PaymentStatus.REFUNDED }
          else s.payments j
        log := s.log ++
          [Step.callTransfer s.escrowAddr (s.payments id).payer
             (s.payments id).amount,
           Step.statusWrite id PaymentStatus.REFUNDED,
           Step.emit (Event.paymentRefunded (s.payments id).payer
             (s.payments id).payee (s.payments id).amount)] } := by
  simp only [refund] at h
  split at h
  next hs => simp at h
  next hs =>
  split at h
  next hid => simp at h
  next hid =>
  split at h
  next hst => simp at h
  next hst =>
  split at h
  next e heq => simp at h
  next l2 heq =>
    injection h with h'
    have hbal : ¬ s.ledger.balance s.escrowAddr <
        (s.payments id).amount := by
      intro hc
      unfold Ledger.transfer at heq
      rw [if_pos hc] at heq
      simp at heq
    exact ⟨not_not.mp hs, not_not.mp hid, not_not.mp hst,
      Nat.le_of_not_lt hbal, l2, heq, h'.symm⟩

theorem withdrawToken_ok_inv {sender : Nat} {s s' : EscrowState}
    (h : withdrawToken sender s = Except.ok s') :
    sender = s.owner ∧
    ∃ l2, s.ledger.transfer s.escrowAddr s.owner
        (s.ledger.balance s.escrowAddr) = Except.ok l2 ∧
      s' = { s with
        ledger := l2
        log := s.log ++
          [Step.callBalanceOf s.escrowAddr,
           Step.callTransfer s.escrowAddr s.owner
             (s.ledger.balance s.escrowAddr),
           Step.callBalanceOf s.escrowAddr,
           Step.emit (Event.tokenWithdrawn s.owner
             (l2.balance s.escrowAddr))] } := by
  simp only [withdrawToken] at h
  split at h
  next hs => simp at h
  next hs =>
  split at h
  next e heq => simp at h
  next l2 heq =>
    injection h with h'
    exact ⟨not_not.mp hs, l2, heq, h'.symm⟩

theorem setProtectionFee_ok_inv {sender fee : Nat} {s s' : EscrowState}
    (h : setProtectionFee sender fee s = Except.ok s') :
    sender = s.owner ∧ 0 < fee ∧
    s' = { s with
      protectionFee := fee
      log := s.log ++ [Step.emit (Event.protectionFeeSet fee)] } := by
  unfold setProtectionFee at h
  split at h
  · simp at h
  · split at h
    · simp at h
    · injection h with h'
      refine ⟨by omega, by omega, h'.symm⟩

theorem setCommissionFee_ok_inv {sender fee : Nat} {s s' : EscrowState}
    (h : setCommissionFee sender fee s = Except.ok s') :
    sender = s.owner ∧ 0 < fee ∧
    s' = { s with
      commissionFee := fee
      log := s.log ++ [Step.emit (Event.commissionFeeSet fee)] } := by
  unfold setCommissionFee at h
  split at h
  · simp at h
  · split at h
    · simp at h
    · injection h with h'
      refine ⟨by omega, by omega, h'.symm⟩

theorem setRentalMarketplaceAddress_ok_inv {sender addr : Nat}
    {s s' : EscrowState}
    (h : setRentalMarketplaceAddress sender addr s = Except.ok s') :
    sender = s.owner ∧ addr ≠ 0 ∧
    s' = { s with
      rentalMarketplaceAddress := addr
      log := s.log ++
        [Step.emit (Event.rentalMarketplaceAddressSet addr)] } := by
  unfold setRentalMarketplaceAddress at h
  split at h
  · simp at h
  · split at h
    · simp at h
    · injection h with h'
      refine ⟨by omega, by assumption, h'.symm⟩

theorem setRentDisputeDAOAddress_ok_inv {sender addr : Nat}
    {s s' : EscrowState}
    (h : setRentDisputeDAOAddress sender addr s = Except.ok s') :
    sender = s.owner ∧ addr ≠ 0 ∧
    s' = { s with
      rentDisputeDAOAddress := addr
      log := s.log ++
        [Step.emit (Event.rentDisputeDAOAddressSet addr)] } := by
  unfold setRentDisputeDAOAddress at h
  split at h
  · simp at h
  · split at h
    · simp at h
    · injection h with h'
      refine ⟨by omega, by assumption, h'.symm⟩

theorem step_ok_create_inv {sender payer payee amount : Nat}
    {s s' : EscrowState}
    (h : step (Op.createPayment sender payer payee amount) s
      = Except.ok s') :
    ∃ r, createPayment sender payer payee amount s = Except.ok (s', r) := by
  simp only [step] at h
  split at h
  next e heq => simp at h
  next s2 r heq =>
    injection h with h'
    exact ⟨r, h' ▸ heq⟩

/-- Once a record is terminal (`RELEASED` or `REFUNDED`), no operation
of the contract changes it. -/
theorem exec_frozen_of_terminal (s : EscrowState) (id : Nat)
    (hid : id < s.numOfPayments) (hterm : isTerminal (s.payments id).status) :
    ∀ op, (exec op s).payments id = s.payments id := by
  intro op
  have hne1 : (s.payments id).status ≠ PaymentStatus.PENDING := by
    rcases hterm with h | h <;> simp [h]
  have hne2 : (s.payments id).status ≠ PaymentStatus.PAID := by
    rcases hterm with h | h <;> simp [h]
  cases hstep : step op s with
  | error e => simp only [exec, hstep]
  | ok s' =>
    simp only [exec, hstep]
    cases op with
    | createPayment sender payer payee amount =>
      obtain ⟨r, hc⟩ := step_ok_create_inv hstep
      obtain ⟨-, -, -, hs'⟩ := createPayment_ok_inv hc
      subst hs'
      simp only
      rw [if_neg (by omega)]
    | pay sender pid =>
      obtain ⟨-, -, hpend, l2, hs'⟩ := pay_ok_inv hstep
      subst hs'
      simp only
      rcases eq_or_ne id pid with hcase | hcase
      · exact absurd (hcase ▸ hpend) hne1
      · rw [if_neg hcase]
    | release sender pid =>
      obtain ⟨-, -, hpaid, -, -, l2, -, hs'⟩ := release_ok_inv hstep
      subst hs'
      simp only
      rcases eq_or_ne id pid with hcase | hcase
      · exact absurd (hcase ▸ hpaid) hne2
      · rw [if_neg hcase]
    | refund sender pid =>
      obtain ⟨-, -, hpaid, -, l2, -, hs'⟩ := refund_ok_inv hstep
      subst hs'
      simp only
      rcases eq_or_ne id pid with hcase | hcase
      · exact absurd (hcase ▸ hpaid) hne2
      · rw [if_neg hcase]
    | withdrawToken sender =>
      obtain ⟨-, l2, -, hs'⟩ := withdrawToken_ok_inv hstep
      subst hs'
      rfl
    | setProtectionFee sender fee =>
      obtain ⟨-, -, hs'⟩ := setProtectionFee_ok_inv hstep
      subst hs'
      rfl
    | setCommissionFee sender fee =>
      obtain ⟨-, -, hs'⟩ := setCommissionFee_ok_inv hstep
      subst hs'
      rfl
    | setRentalMarketplaceAddress sender addr =>
      obtain ⟨-, -, hs'⟩ := setRentalMarketplaceAddress_ok_inv hstep
      subst hs'
      rfl
    | setRentDisputeDAOAddress sender addr =>
      obtain ⟨-, -, hs'⟩ := setRentDisputeDAOAddress_ok_inv hstep
      subst hs'
      rfl

/-! ### Concrete scenario states, used to instantiate the theorems -/

/-- A concrete ledger: account 7 holds 1000 tokens, everything else is
empty. -/
def demoLedger : Ledger :=
  { balance := fun a => if a = 7 then 1000 else 0
    allowance := fun _ _ => 0 }

/-- The contract deployed by account 5 at escrow account 9 with
protection fee 20 and commission fee 50, then bound to marketplace
account 1 and dispute-DAO account 2 by the owner. -/
def demoState : EscrowState :=
  exec (Op.setRentalMarketplaceAddress 5 1)
    (exec (Op.setRentDisputeDAOAddress 5 2) (deploy 5 9 20 50 demoLedger))

/-- `demoState` after the marketplace creates payment 0
(payer 7, payee 8, amount 1000). -/
def demoCreated : EscrowState := exec (Op.createPayment 1 7 8 1000) demoState

/-- `demoCreated` after the marketplace executes `pay(0)`:
the escrow now holds the 1000 tokens. -/
def demoPaid : EscrowState := exec (Op.pay 1 0) demoCreated

/-- `demoPaid` after the marketplace executes `release(0)`:
the payee received 950, the commission of 50 rests in the escrow. -/
def demoReleased : EscrowState := exec (Op.release 1 0) demoPaid

/-! ### The claims -/

/-- C1: the status of every existing payment record only moves forward
along `PENDING → PAID → {RELEASED, REFUNDED}`: `pay` succeeds only on a
`PENDING` record (making it `PAID`), `release` and `refund` succeed
only on a `PAID` record (making it `RELEASED` resp. `REFUNDED`); once
the record is terminal no operation whatsoever mutates it, and driving
`pay`, `release` or `refund` at it from an authorized caller is
rejected with `InvalidState`. -/
theorem C1_status_lifecycle (s : EscrowState) (id : Nat)
    (hid : id < s.numOfPayments) :
    (∀ sender s', pay sender id s = Except.ok s' →
       (s.payments id).status = PaymentStatus.PENDING ∧
       (s'.payments id).status = PaymentStatus.PAID) ∧
    (∀ sender s', release sender id s = Except.ok s' →
       (s.payments id).status = PaymentStatus.PAID ∧
       (s'.payments id).status = PaymentStatus.RELEASED) ∧
    (∀ sender s', refund sender id s = Except.ok s' →
       (s.payments id).status = PaymentStatus.PAID ∧
       (s'.payments id).status = PaymentStatus.REFUNDED) ∧
    (isTerminal (s.payments id).status →
       (∀ op, (exec op s).payments id = s.payments id) ∧
       (∀ sender, sender = s.rentalMarketplaceAddress →
          pay sender id s = Except.error EscrowError.InvalidState ∧
          release sender id s = Except.error EscrowError.InvalidState) ∧
       (∀ sender, sender = s.rentalMarketplaceAddress ∨
            sender = s.rentDisputeDAOAddress →
          refund sender id s = Except.error EscrowError.InvalidState)) := by
  refine ⟨?_, ?_, ?_, ?_⟩
  · intro sender s' h
    obtain ⟨-, -, hpend, l2, hs'⟩ := pay_ok_inv h
    subst hs'
    exact ⟨hpend, by simp⟩
  · intro sender s' h
    obtain ⟨-, -, hpaid, -, -, l2, -, hs'⟩ := release_ok_inv h
    subst hs'
    exact ⟨hpaid, by simp⟩
  · intro sender s' h
    obtain ⟨-, -, hpaid, -, l2, -, hs'⟩ := refund_ok_inv h
    subst hs'
    exact ⟨hpaid, by simp⟩
  · intro hterm
    have hne1 : (s.payments id).status ≠ PaymentStatus.PENDING := by
      rcases hterm with h | h <;> simp [h]
    have hne2 : (s.payments id).status ≠ PaymentStatus.PAID := by
      rcases hterm with h | h <;> simp [h]
    refine ⟨exec_frozen_of_terminal s id hid hterm, ?_, ?_⟩
    · intro sender hsender
      constructor
      · simp only [pay]
        rw [if_neg (not_not_intro hsender), if_neg (not_not_intro hid),
          if_pos hne1]
      · simp only [release]
        rw [if_neg (not_not_intro hsender), if_neg (not_not_intro hid),
          if_pos hne2]
    · intro sender hsender
      simp only [refund]
      rw [if_neg (not_not_intro hsender), if_neg (not_not_intro hid),
        if_pos hne2]

/-- Witness for C1 at a concrete terminal record: payment 0 of
`demoReleased` is `RELEASED`, so all three transition attempts are
rejected with `InvalidState`. -/
theorem C1_status_lifecycle_witness :
    pay 1 0 demoReleased = Except.error EscrowError.InvalidState ∧
    release 1 0 demoReleased = Except.error EscrowError.InvalidState ∧
    refund 2 0 demoReleased = Except.error EscrowError.InvalidState := by
  obtain ⟨-, -, -, hterm⟩ := C1_status_lifecycle demoReleased 0 (by decide)
  obtain ⟨-, hmk, hdao⟩ := hterm (by decide)
  exact ⟨(hmk 1 rfl).1, (hmk 1 rfl).2, hdao 2 (by decide)⟩

/-- `demoPaid` after the dispute DAO (account 2) executes `refund(0)`:
the payer got the full 1000 back. -/
def demoRefunded : EscrowState := exec (Op.refund 2 0) demoPaid

/-- C2: a successful `release(id)` of a record with amount `A` under
current commission fee `F` transfers exactly `A − F` out of the escrow
holding balance to the payee (so `F` of the held amount stays in the
escrow), sets the record to `RELEASED`, and the transferred quantity is
computed from the commission fee of the state at the moment of the
call — the record itself stores no fee, so no creation-time fee can be
involved. -/
theorem C2_release_credits_payee (s : EscrowState) (sender id : Nat)
    (s' : EscrowState) (hok : release sender id s = Except.ok s')
    (hdistinct : (s.payments id).payee ≠ s.escrowAddr) :
    (s.payments id).status = PaymentStatus.PAID ∧
    (s'.payments id).status = PaymentStatus.RELEASED ∧
    s.commissionFee ≤ (s.payments id).amount ∧
    s'.ledger.balance (s.payments id).payee
      = s.ledger.balance (s.payments id).payee
        + ((s.payments id).amount - s.commissionFee) ∧
    s'.ledger.balance s.escrowAddr
      = s.ledger.balance s.escrowAddr
        - ((s.payments id).amount - s.commissionFee) ∧
    s'.commissionFee = s.commissionFee ∧
    s'.log = s.log ++
      [Step.callTransfer s.escrowAddr (s.payments id).payee
         ((s.payments id).amount - s.commissionFee),
       Step.statusWrite id PaymentStatus.RELEASED,
       Step.emit (Event.paymentReleased (s.payments id).payer
         (s.payments id).payee (s.payments id).amount)] := by
  obtain ⟨-, -, hpaid, hfee, hbal, l2, htr, hs'⟩ := release_ok_inv hok
  subst hs'
  unfold Ledger.transfer at htr
  rw [if_neg (Nat.not_lt.mpr hbal)] at htr
  injection htr with hl2
  subst hl2
  refine ⟨hpaid, by simp, hfee, ?_, ?_, rfl, rfl⟩
  · simp [hdistinct]
  · simp [Ne.symm hdistinct]

/-- Witness for C2 on the demo scenario: releasing payment 0
(amount 1000, commission fee 50) moves 950 to payee 8 and leaves the
escrow account 9 holding the 50 commission. -/
theorem C2_release_credits_payee_witness :
    demoReleased.ledger.balance 8
      = demoPaid.ledger.balance 8 + (1000 - 50) ∧
    demoReleased.ledger.balance 9
      = demoPaid.ledger.balance 9 - (1000 - 50) ∧
    (demoReleased.payments 0).status = PaymentStatus.RELEASED := by
  have h := C2_release_credits_payee demoPaid 1 0 demoReleased rfl (by decide)
  exact ⟨h.2.2.2.1, h.2.2.2.2.1, h.2.1⟩

/-- C3: a successful `refund(id)` of a `PAID` record transfers the full
original amount out of the escrow holding balance back to the payer —
no commission or protection fee is deducted, whatever the current fee
values are — and sets the record to `REFUNDED`. -/
theorem C3_refund_credits_payer (s : EscrowState) (sender id : Nat)
    (s' : EscrowState) (hok : refund sender id s = Except.ok s')
    (hdistinct : (s.payments id).payer ≠ s.escrowAddr) :
    (s.payments id).status = PaymentStatus.PAID ∧
    (s'.payments id).status = PaymentStatus.REFUNDED ∧
    s'.ledger.balance (s.payments id).payer
      = s.ledger.balance (s.payments id).payer + (s.payments id).amount ∧
    s'.ledger.balance s.escrowAddr
      = s.ledger.balance s.escrowAddr - (s.payments id).amount ∧
    s'.log = s.log ++
      [Step.callTransfer s.escrowAddr (s.payments id).payer
         (s.payments id).amount,
       Step.statusWrite id PaymentStatus.REFUNDED,
       Step.emit (Event.paymentRefunded (s.payments id).payer
         (s.payments id).payee (s.payments id).amount)] := by
  obtain ⟨-, -, hpaid, hbal, l2, htr, hs'⟩ := refund_ok_inv hok
  subst hs'
  unfold Ledger.transfer at htr
  rw [if_neg (Nat.not_lt.mpr hbal)] at htr
  injection htr with hl2
  subst hl2
  refine ⟨hpaid, by simp, ?_, ?_, rfl⟩
  · simp [hdistinct]
  · simp [Ne.symm hdistinct]

/-- Witness for C3 on the demo scenario: the dispute DAO refunds
payment 0 and payer 7 receives the full 1000 even though the
commission fee is 50. -/
theorem C3_refund_credits_payer_witness :
    demoRefunded.ledger.balance 7
      = demoPaid.ledger.balance 7 + 1000 ∧
    demoRefunded.ledger.balance 9
      = demoPaid.ledger.balance 9 - 1000 ∧
    (demoRefunded.payments 0).status = PaymentStatus.REFUNDED ∧
    demoPaid.commissionFee = 50 := by
  have h := C3_refund_credits_payer demoPaid 2 0 demoRefunded rfl (by decide)
  exact ⟨h.2.2.1, h.2.2.2.1, h.2.1, rfl⟩

/-- C4: any caller other than the bound marketplace identity is
rejected with `Unauthorized` by `pay` and `release`, and the rejected
call leaves the whole state (in particular the referenced record and
the payment count) unchanged; `refund`, by contrast, accepts either
the marketplace or the dispute-DAO identity (it never answers
`Unauthorized` to them) and rejects everyone else with
`Unauthorized`. -/
theorem C4_access_control (s : EscrowState) (sender id : Nat)
    (hsender : sender ≠ s.rentalMarketplaceAddress) :
    pay sender id s = Except.error EscrowError.Unauthorized ∧
    release sender id s = Except.error EscrowError.Unauthorized ∧
    exec (Op.pay sender id) s = s ∧
    exec (Op.release sender id) s = s ∧
    (∀ c, c = s.rentalMarketplaceAddress ∨ c = s.rentDisputeDAOAddress →
       refund c id s ≠ Except.error EscrowError.Unauthorized) ∧
    (sender ≠ s.rentDisputeDAOAddress →
       refund sender id s = Except.error EscrowError.Unauthorized ∧
       exec (Op.refund sender id) s = s) := by
  have hpay : pay sender id s = Except.error EscrowError.Unauthorized := by
    simp only [pay]
    rw [if_pos hsender]
  have hrel : release sender id s = Except.error EscrowError.Unauthorized := by
    simp only [release]
    rw [if_pos hsender]
  refine ⟨hpay, hrel, ?_, ?_, ?_, ?_⟩
  · simp only [exec, step, hpay]
  · simp only [exec, step, hrel]
  · intro c hc
    simp only [refund]
    rw [if_neg (not_not_intro hc)]
    split
    · simp
    · split
      · simp
      · split
        next e heq =>
          intro hcontra
          injection hcontra with he
          subst he
          unfold Ledger.transfer at heq
          split at heq
          · simp at heq
          · simp at heq
        next l2 heq => simp
  · intro hdao
    have href : refund sender id s = Except.error EscrowError.Unauthorized := by
      simp only [refund]
      rw [if_pos (by
        intro hc
        rcases hc with hc | hc
        · exact hsender hc
        · exact hdao hc)]
    exact ⟨href, by simp only [exec, step, href]⟩

/-- Witness for C4: account 3 (neither marketplace 1 nor DAO 2) is
rejected with `Unauthorized` by all three operations on `demoCreated`,
leaving the state unchanged, while `refund` does not answer
`Unauthorized` to the marketplace or the DAO. -/
theorem C4_access_control_witness :
    pay 3 0 demoCreated = Except.error EscrowError.Unauthorized ∧
    release 3 0 demoCreated = Except.error EscrowError.Unauthorized ∧
    exec (Op.pay 3 0) demoCreated = demoCreated ∧
    refund 3 0 demoCreated = Except.error EscrowError.Unauthorized ∧
    refund 2 0 demoCreated ≠ Except.error EscrowError.Unauthorized := by
  have h := C4_access_control demoCreated 3 0 (by decide)
  exact ⟨h.1, h.2.1, h.2.2.1, (h.2.2.2.2.2 (by decide)).1,
    h.2.2.2.2.1 2 (by decide)⟩

/-- C5 counterexample: `createPayment` does NOT require `amount > 0` —
the funding check `balance ≥ amount` is satisfied by `amount = 0` even
for a payer with zero balance, so the call succeeds, appends a record
of amount 0 and advances the counter. -/
theorem C5_counterexample :
    demoState.ledger.balance 11 = 0 ∧
    (createPayment 1 11 8 0 demoState).isOk = true ∧
    (exec (Op.createPayment 1 11 8 0) demoState).numOfPayments = 1 ∧
    ((exec (Op.createPayment 1 11 8 0) demoState).payments 0).amount
      = 0 := by
  refine ⟨rfl, rfl, rfl, rfl⟩

/-- C5 (amended): `create` requires only that the payer's ledger balance
be at least `amount` (so `amount = 0` is accepted — the funding check
does not imply `amount > 0`); when the balance is below the requested
amount the call is rejected with `InsufficientFunds` and the state —
in particular the payment count — is unchanged; on success it appends
a new `PENDING` record at the old count, advances the counter by one,
touches no other record and returns the new id. -/
theorem C5_create_checks_balance (s : EscrowState)
    (sender payer payee amount : Nat)
    (hauth : sender = s.rentalMarketplaceAddress ∨
      sender = s.rentDisputeDAOAddress) :
    (s.ledger.balance payer < amount →
       createPayment sender payer payee amount s
         = Except.error EscrowError.InsufficientFunds ∧
       exec (Op.createPayment sender payer payee amount) s = s) ∧
    (amount ≤ s.ledger.balance payer →
       ∃ s', createPayment sender payer payee amount s
           = Except.ok (s', s.numOfPayments) ∧
         s'.numOfPayments = s.numOfPayments + 1 ∧
         s'.payments s.numOfPayments
           = { payer := payer, payee := payee, amount := amount,
               status := PaymentStatus.PENDING } ∧
         (∀ j, j ≠ s.numOfPayments → s'.payments j = s.payments j)) := by
  constructor
  · intro hlt
    have hrej : createPayment sender payer payee amount s
        = Except.error EscrowError.InsufficientFunds := by
      simp only [createPayment]
      rw [if_neg (not_not_intro hauth), if_pos hlt]
    exact ⟨hrej, by simp only [exec, step, hrej]⟩
  · intro hge
    refine ⟨{ s with
        payments := fun j =>
          if j = s.numOfPayments then
            { payer := payer, payee := payee, amount := amount,
              status := PaymentStatus.PENDING }
          else s.payments j
        numOfPayments := s.numOfPayments + 1
        log := s.log ++
          [Step.callBalanceOf payer,
           Step.emit (Event.paymentCreated payer payee amount)] },
      ?_, rfl, by simp, ?_⟩
    · simp only [createPayment]
      rw [if_neg (not_not_intro hauth), if_neg (Nat.not_lt.mpr hge)]
    · intro j hj
      simp [hj]

/-- Witness for C5 (amended): payer 7 holds 1000 tokens, so a create
for 1001 is rejected with `InsufficientFunds` leaving `demoState`
unchanged. -/
theorem C5_create_checks_balance_witness :
    createPayment 1 7 8 1001 demoState
      = Except.error EscrowError.InsufficientFunds ∧
    exec (Op.createPayment 1 7 8 1001) demoState = demoState := by
  have h := C5_create_checks_balance demoState 1 7 8 1001 (by decide)
  exact h.1 (by decide)

/-- C6 (refuting the claim): in each of `pay`, `release` and `refund`
the external calls into the ledger adapter happen strictly BEFORE the
status transition is committed.  The step sequences appended by the
three demo transitions put the `callApprove` / `callTransferFrom` /
`callTransfer` steps ahead of the `statusWrite` step — the opposite of
the order the claim asserts. -/
theorem C6_transfer_precedes_status_commit :
    demoPaid.log.drop demoCreated.log.length
      = [Step.callApprove 7 9 1000, Step.callTransferFrom 9 7 9 1000,
         Step.statusWrite 0 PaymentStatus.PAID,
         Step.emit (Event.paymentPaid 7 8 1000)] ∧
    demoReleased.log.drop demoPaid.log.length
      = [Step.callTransfer 9 8 (1000 - 50),
         Step.statusWrite 0 PaymentStatus.RELEASED,
         Step.emit (Event.paymentReleased 7 8 1000)] ∧
    demoRefunded.log.drop demoPaid.log.length
      = [Step.callTransfer 9 7 1000,
         Step.statusWrite 0 PaymentStatus.REFUNDED,
         Step.emit (Event.paymentRefunded 7 8 1000)] := by
  refine ⟨rfl, rfl, rfl⟩

theorem step_ok_default_beyond {op : Op} {s s' : EscrowState}
    (h : step op s = Except.ok s')
    (hinv : ∀ j, s.numOfPayments ≤ j → s.payments j = defaultPayment) :
    ∀ j, s'.numOfPayments ≤ j → s'.payments j = defaultPayment := by
  cases op with
  | createPayment sender payer payee amount =>
    obtain ⟨r, hc⟩ := step_ok_create_inv h
    obtain ⟨-, -, -, hs'⟩ := createPayment_ok_inv hc
    subst hs'
    intro j hj
    simp only at hj ⊢
    rw [if_neg (by omega)]
    exact hinv j (by omega)
  | pay sender pid =>
    obtain ⟨-, hpid, -, l2, hs'⟩ := pay_ok_inv h
    subst hs'
    intro j hj
    simp only at hj ⊢
    rw [if_neg (by omega)]
    exact hinv j hj
  | release sender pid =>
    obtain ⟨-, hpid, -, -, -, l2, -, hs'⟩ := release_ok_inv h
    subst hs'
    intro j hj
    simp only at hj ⊢
    rw [if_neg (by omega)]
    exact hinv j hj
  | refund sender pid =>
    obtain ⟨-, hpid, -, -, l2, -, hs'⟩ := refund_ok_inv h
    subst hs'
    intro j hj
    simp only at hj ⊢
    rw [if_neg (by omega)]
    exact hinv j hj
  | withdrawToken sender =>
    obtain ⟨-, l2, -, hs'⟩ := withdrawToken_ok_inv h
    subst hs'
    exact hinv
  | setProtectionFee sender fee =>
    obtain ⟨-, -, hs'⟩ := setProtectionFee_ok_inv h
    subst hs'
    exact hinv
  | setCommissionFee sender fee =>
    obtain ⟨-, -, hs'⟩ := setCommissionFee_ok_inv h
    subst hs'
    exact hinv
  | setRentalMarketplaceAddress sender addr =>
    obtain ⟨-, -, hs'⟩ := setRentalMarketplaceAddress_ok_inv h
    subst hs'
    exact hinv
  | setRentDisputeDAOAddress sender addr =>
    obtain ⟨-, -, hs'⟩ := setRentDisputeDAOAddress_ok_inv h
    subst hs'
    exact hinv

theorem reachable_default_beyond {s0 s : EscrowState}
    (h : Reachable s0 s)
    (h0 : ∀ j, s0.numOfPayments ≤ j → s0.payments j = defaultPayment) :
    ∀ j, s.numOfPayments ≤ j → s.payments j = defaultPayment := by
  induction h with
  | refl => exact h0
  | next op hr hs ih => exact step_ok_default_beyond hs ih

/-- C7 counterexample: with no payment created yet (count 0), reading
id 3 does not fail with `NotFound` — `getPayment` has no bounds check
and hands back the zero-default empty record. -/
theorem C7_counterexample :
    demoState.numOfPayments = 0 ∧
    getPayment 3 demoState = defaultPayment := ⟨rfl, rfl⟩

/-- C7 (amended): `getPayment` performs no bounds check: for every id
it returns the snapshot of the stored mapping entry — for an id below
the count the stored record, and for an id at or above the count (in
any state reachable from deployment) the zero-default empty record,
never an explicit failure.  As a view function it takes the state and
returns a value, mutating nothing. -/
theorem C7_getPayment_no_bounds_check (dep esc pf cf : Nat) (l : Ledger)
    (s : EscrowState) (h : Reachable (deploy dep esc pf cf l) s)
    (id : Nat) :
    getPayment id s = s.payments id ∧
    (s.numOfPayments ≤ id → getPayment id s = defaultPayment) := by
  refine ⟨rfl, fun hge => ?_⟩
  exact reachable_default_beyond h (fun j _ => rfl) id hge

/-- Witness for C7 (amended) at `demoState`, reached from deployment by
the two address-binding operations: the out-of-range read of id 0
returns the default record. -/
theorem C7_getPayment_no_bounds_check_witness :
    getPayment 0 demoState = defaultPayment := by
  have hreach : Reachable (deploy 5 9 20 50 demoLedger) demoState :=
    Reachable.next (Op.setRentalMarketplaceAddress 5 1)
      (Reachable.next (Op.setRentDisputeDAOAddress 5 2)
        Reachable.refl rfl) rfl
  exact (C7_getPayment_no_bounds_check 5 9 20 50 demoLedger demoState
    hreach 0).2 (by decide)

/-- `demoReleased` (escrow account 9 holds the 50-token commission)
after the owner (account 5) withdraws. -/
def demoWithdrawn : EscrowState := exec (Op.withdrawToken 5) demoReleased

/-- C8 (refuting the notification part of the claim): `withdrawToken`
is owner-only and does sweep the entire holding balance (50 tokens) to
the owner, but the emitted `tokenWithdrawn` notification re-reads the
escrow balance AFTER the transfer, so it carries 0, not the 50 that
were withdrawn. -/
theorem C8_withdraw_event_carries_zero :
    getBalance demoReleased = 50 ∧
    withdrawToken 4 demoReleased = Except.error EscrowError.Unauthorized ∧
    getBalance demoWithdrawn = 0 ∧
    demoWithdrawn.ledger.balance 5 = 50 ∧
    demoWithdrawn.log.drop demoReleased.log.length
      = [Step.callBalanceOf 9, Step.callTransfer 9 5 50,
         Step.callBalanceOf 9,
         Step.emit (Event.tokenWithdrawn 5 0)] := by
  refine ⟨rfl, rfl, rfl, rfl, rfl⟩

/-- C9 counterexample: the constructor stores the supplied fees without
any validation, so deploying with both fees 0 yields a reachable state
in which `protectionFee` and `commissionFee` are 0 — construction does
NOT establish positive values. -/
theorem C9_counterexample :
    (deploy 5 9 0 0 demoLedger).protectionFee = 0 ∧
    (deploy 5 9 0 0 demoLedger).commissionFee = 0 := ⟨rfl, rfl⟩

theorem step_ok_fees_pos {op : Op} {s s' : EscrowState}
    (h : step op s = Except.ok s')
    (hp : 0 < s.protectionFee) (hc : 0 < s.commissionFee) :
    0 < s'.protectionFee ∧ 0 < s'.commissionFee := by
  cases op with
  | createPayment sender payer payee amount =>
    obtain ⟨r, hcr⟩ := step_ok_create_inv h
    obtain ⟨-, -, -, hs'⟩ := createPayment_ok_inv hcr
    subst hs'
    exact ⟨hp, hc⟩
  | pay sender pid =>
    obtain ⟨-, -, -, l2, hs'⟩ := pay_ok_inv h
    subst hs'
    exact ⟨hp, hc⟩
  | release sender pid =>
    obtain ⟨-, -, -, -, -, l2, -, hs'⟩ := release_ok_inv h
    subst hs'
    exact ⟨hp, hc⟩
  | refund sender pid =>
    obtain ⟨-, -, -, -, l2, -, hs'⟩ := refund_ok_inv h
    subst hs'
    exact ⟨hp, hc⟩
  | withdrawToken sender =>
    obtain ⟨-, l2, -, hs'⟩ := withdrawToken_ok_inv h
    subst hs'
    exact ⟨hp, hc⟩
  | setProtectionFee sender fee =>
    obtain ⟨-, hfee, hs'⟩ := setProtectionFee_ok_inv h
    subst hs'
    exact ⟨hfee, hc⟩
  | setCommissionFee sender fee =>
    obtain ⟨-, hfee, hs'⟩ := setCommissionFee_ok_inv h
    subst hs'
    exact ⟨hp, hfee⟩
  | setRentalMarketplaceAddress sender addr =>
    obtain ⟨-, -, hs'⟩ := setRentalMarketplaceAddress_ok_inv h
    subst hs'
    exact ⟨hp, hc⟩
  | setRentDisputeDAOAddress sender addr =>
    obtain ⟨-, -, hs'⟩ := setRentDisputeDAOAddress_ok_inv h
    subst hs'
    exact ⟨hp, hc⟩

/-- C9 (amended): construction stores the supplied fee values with no
validation; but the owner-only setters reject a non-positive
replacement with `InvalidParameter` (a non-owner is rejected with
`Unauthorized`) leaving the stored fee unchanged, so from any initial
state whose fees are positive, every reachable state keeps both fees
positive. -/
theorem C9_fees_stay_positive (s0 s : EscrowState) (h : Reachable s0 s)
    (hp : 0 < s0.protectionFee) (hc : 0 < s0.commissionFee) :
    0 < s.protectionFee ∧ 0 < s.commissionFee ∧
    (∀ sender, sender = s.owner →
       setProtectionFee sender 0 s
         = Except.error EscrowError.InvalidParameter ∧
       setCommissionFee sender 0 s
         = Except.error EscrowError.InvalidParameter) ∧
    (∀ sender, exec (Op.setProtectionFee sender 0) s = s ∧
       exec (Op.setCommissionFee sender 0) s = s) := by
  have hpos : 0 < s.protectionFee ∧ 0 < s.commissionFee := by
    induction h with
    | refl => exact ⟨hp, hc⟩
    | next op hr hs ih => exact step_ok_fees_pos hs ih.1 ih.2
  refine ⟨hpos.1, hpos.2, ?_, ?_⟩
  · intro sender hsown
    constructor
    · simp only [setProtectionFee]
      rw [if_neg (not_not_intro hsown), if_pos (by omega)]
    · simp only [setCommissionFee]
      rw [if_neg (not_not_intro hsown), if_pos (by omega)]
  · intro sender
    constructor
    · have herr : ∃ e, setProtectionFee sender 0 s = Except.error e := by
        simp only [setProtectionFee]
        split
        · exact ⟨_, rfl⟩
        · rw [if_pos (by omega)]
          exact ⟨_, rfl⟩
      obtain ⟨e, he⟩ := herr
      simp only [exec, step, he]
    · have herr : ∃ e, setCommissionFee sender 0 s = Except.error e := by
        simp only [setCommissionFee]
        split
        · exact ⟨_, rfl⟩
        · rw [if_pos (by omega)]
          exact ⟨_, rfl⟩
      obtain ⟨e, he⟩ := herr
      simp only [exec, step, he]

/-- Witness for C9 (amended): `demoState` is reached from a deployment
with fees 20 and 50; its commission fee is positive and the owner's
attempt to set it to 0 is rejected with `InvalidParameter`, leaving
the state unchanged. -/
theorem C9_fees_stay_positive_witness :
    0 < demoState.commissionFee ∧
    setCommissionFee 5 0 demoState
      = Except.error EscrowError.InvalidParameter ∧
    exec (Op.setCommissionFee 5 0) demoState = demoState := by
  have hreach : Reachable (deploy 5 9 20 50 demoLedger) demoState :=
    Reachable.next (Op.setRentalMarketplaceAddress 5 1)
      (Reachable.next (Op.setRentDisputeDAOAddress 5 2)
        Reachable.refl rfl) rfl
  have h := C9_fees_stay_positive (deploy 5 9 20 50 demoLedger) demoState
    hreach (by decide) (by decide)
  exact ⟨h.2.1, (h.2.2.1 5 rfl).2, (h.2.2.2 5).2⟩

/-- `demoState` after the marketplace creates a payment of only 30
tokens (less than the 50-token commission fee) and the payer funds
it. -/
def demoSmallPaid : EscrowState :=
  exec (Op.pay 1 0) (exec (Op.createPayment 1 7 8 30) demoState)

/-- C10: on a `PAID` record whose amount is strictly below the current
commission fee, `release` aborts on the checked subtraction
`amount - commissionFee` with an arithmetic underflow before any
transfer occurs (the state, hence the record's `PAID` status, the
escrow balance and the log, is unchanged); and nothing prevents such a
record from existing: `createPayment` succeeds for any funded amount,
with no comparison against the commission fee. -/
theorem C10_release_underflow (s : EscrowState) (sender id : Nat)
    (hsender : sender = s.rentalMarketplaceAddress)
    (hid : id < s.numOfPayments)
    (hst : (s.payments id).status = PaymentStatus.PAID)
    (hlt : (s.payments id).amount < s.commissionFee) :
    release sender id s = Except.error EscrowError.Underflow ∧
    exec (Op.release sender id) s = s ∧
    (∀ payer payee a, a ≤ s.ledger.balance payer → a < s.commissionFee →
       (createPayment sender payer payee a s).isOk = true) := by
  have hrel : release sender id s = Except.error EscrowError.Underflow := by
    simp only [release]
    rw [if_neg (not_not_intro hsender), if_neg (not_not_intro hid),
      if_neg (not_not_intro hst), if_pos hlt]
  refine ⟨hrel, by simp only [exec, step, hrel], ?_⟩
  intro payer payee a hbal hafee
  simp only [createPayment]
  rw [if_neg (not_not_intro (Or.inl hsender)), if_neg (Nat.not_lt.mpr hbal)]
  rfl

/-- Witness for C10: payment 0 of `demoSmallPaid` is `PAID` with
amount 30 while the commission fee is 50; `release` aborts with the
underflow and the state survives unchanged. -/
theorem C10_release_underflow_witness :
    release 1 0 demoSmallPaid = Except.error EscrowError.Underflow ∧
    exec (Op.release 1 0) demoSmallPaid = demoSmallPaid := by
  have h := C10_release_underflow demoSmallPaid 1 0 rfl (by decide)
    (by decide) (by decide)
  exact ⟨h.1, h.2.1⟩

end PaymentEscrow
